import Mathlib

/-!
Verification of the sardar-tv ingestion pipeline against its design spec.

The Python sources are shallowly embedded: pure string processing becomes
functions over `List Char`, network responses and filesystem effects become
explicit environment records, and the background upload worker becomes a
state-passing function that also emits an event trace.
-/

/-! ## Media reference extractor (youtube_to_s3_api.py, extract_youtube_url) -/

/-- Character class `[a-zA-Z0-9_-]` used by every capture group. -/
def isIdChar (c : Char) : Bool :=
  c.isAlphanum || c = '_' || c = '-'

/-- Match a literal character sequence at the head of `s`; return the rest on success. -/
def matchLit : List Char → List Char → Option (List Char)
  | [], s => some s
  | _, [] => none
  | l :: ls, c :: cs => if c = l then matchLit ls cs else none

/-- Regex `([a-zA-Z0-9_-]{11})` at the current position: the next eleven
characters must lie in the class; the capture is those eleven characters. -/
def grabToken (s : List Char) : Option (List Char) :=
  let run := s.takeWhile isIdChar
  if 11 ≤ run.length then some (run.take 11) else none

/-- Attempt `<literal>([a-zA-Z0-9_-]{11})` at the current position. -/
def litTokAt (lit s : List Char) : Option (List Char) :=
  match matchLit lit s with
  | some rest => grabToken rest
  | none => none

/-- `re.search` for a pattern of the form `<literal>([a-zA-Z0-9_-]{11})`:
scan left to right for the first position where the literal is followed by
eleven identifier characters. -/
def searchLitTok (lit : List Char) : List Char → Option (List Char)
  | [] => litTokAt lit []
  | c :: cs =>
    match litTokAt lit (c :: cs) with
    | some t => some t
    | none => searchLitTok lit cs

/-- Alternation `(?:/|/watch?v=|/embed/)` followed by the token capture,
tried in the regex alternative order. -/
def trySeps (rest : List Char) : Option (List Char) :=
  match litTokAt "/".data rest with
  | some t => some t
  | none =>
    match litTokAt "/watch?v=".data rest with
    | some t => some t
    | none => litTokAt "/embed/".data rest

/-- Pattern 5 `(?:youtube.com|youtu.be)(?:/|/watch?v=|/embed/)([a-zA-Z0-9_-]{11})`
attempted at one position. -/
def matchP5At (s : List Char) : Option (List Char) :=
  match matchLit "youtube.com".data s with
  | some rest => trySeps rest
  | none =>
    match matchLit "youtu.be".data s with
    | some rest => trySeps rest
    | none => none

/-- `re.search` for pattern 5: leftmost position at which it matches. -/
def searchP5 : List Char → Option (List Char)
  | [] => matchP5At []
  | c :: cs =>
    match matchP5At (c :: cs) with
    | some t => some t
    | none => searchP5 cs

/-- Canonical URL rewriting shared by every pattern branch. -/
def canonicalUrl (t : List Char) : String :=
  "https://www.youtube.com/watch?v=" ++ String.mk t

/-- Blacklist of non-identifier literals checked by the catch-all branch. -/
def idBlacklist : List String := ["watch", "embed", "https", "http"]

/-- `extract_youtube_url` from youtube_to_s3_api.py: five patterns tried in
priority order; the catch-all additionally rejects blacklisted captures. -/
def extract_youtube_url (html : String) : Option String :=
  let s := html.data
  match searchLitTok "youtube.com/embed/".data s with
  | some t => some (canonicalUrl t)
  | none =>
    match searchLitTok "youtu.be/".data s with
    | some t => some (canonicalUrl t)
    | none =>
      match searchLitTok "youtube.com/watch?v=".data s with
      | some t => some (canonicalUrl t)
      | none =>
        match searchLitTok "youtu.be/watch?v=".data s with
        | some t => some (canonicalUrl t)
        | none =>
          match searchP5 s with
          | some t =>
            if idBlacklist.contains (String.mk t) then none
            else some (canonicalUrl t)
          | none => none

/-- The same extractor with the catch-all blacklist check removed, for
comparing observable behaviour with and without the check. -/
def extract_youtube_url_no_blacklist (html : String) : Option String :=
  let s := html.data
  match searchLitTok "youtube.com/embed/".data s with
  | some t => some (canonicalUrl t)
  | none =>
    match searchLitTok "youtu.be/".data s with
    | some t => some (canonicalUrl t)
    | none =>
      match searchLitTok "youtube.com/watch?v=".data s with
      | some t => some (canonicalUrl t)
      | none =>
        match searchLitTok "youtu.be/watch?v=".data s with
        | some t => some (canonicalUrl t)
        | none =>
          match searchP5 s with
          | some t => some (canonicalUrl t)
          | none => none

example : extract_youtube_url "https://www.youtube.com/embed/1ArkKtDlGOc" =
    some "https://www.youtube.com/watch?v=1ArkKtDlGOc" := by decide

example : extract_youtube_url "http://youtu.be/watch?v=iDtprDhz4v8" =
    some "https://www.youtube.com/watch?v=iDtprDhz4v8" := by decide

example : extract_youtube_url "no videos here" = none := by decide

example : extract_youtube_url
    "see youtube.com/AAAAAAAAAAA then https://www.youtube.com/watch?v=BBBBBBBBBBB" =
    some "https://www.youtube.com/watch?v=BBBBBBBBBBB" := by decide

/-! ## Source enumerator (youtube_to_s3_api.py, fetch_posts_from_api) -/

/-- A raw WordPress post as delivered by one page body: id, rendered title,
rendered content, publish date. -/
structure RawPost where
  id : String
  title : String
  content : String
  date : String
deriving DecidableEq

/-- A candidate collected by enumeration: id, title, extracted canonical URL, date. -/
structure PostInfo where
  id : String
  title : String
  youtube_url : String
  date : String
deriving DecidableEq

/-- The outcome of one page request: an HTTP response with status code, JSON
body and optional `X-WP-TotalPages` header, or a raised request/parse error. -/
inductive FetchResp where
  | ok (status : Nat) (body : List RawPost) (totalPages : Option Nat)
  | reqError
deriving DecidableEq

/-- The `X-WP-TotalPages` header carried by a response, if any. -/
def respTotalPages : FetchResp → Option Nat
  | .ok _ _ tp => tp
  | .reqError => none

/-- Python truthiness test `max_posts and len(posts) >= max_posts`:
false when `max_posts` is absent or zero. -/
def maxReached (maxPosts : Option Nat) (n : Nat) : Bool :=
  match maxPosts with
  | some m => decide (0 < m) && decide (m ≤ n)
  | none => false

/-- The inner `for post in page_posts` loop: skip already-uploaded ids,
extract a canonical URL, collect candidates, and break out as soon as
`max_posts` candidates have been gathered. -/
def processPage (uploaded : List String) (maxPosts : Option Nat) :
    List RawPost → List PostInfo → List PostInfo
  | [], acc => acc
  | p :: rest, acc =>
    if uploaded.contains p.id then processPage uploaded maxPosts rest acc
    else
      match extract_youtube_url p.content with
      | none => processPage uploaded maxPosts rest acc
      | some url =>
        let acc2 := acc ++ [⟨p.id, p.title, url, p.date⟩]
        if maxReached maxPosts acc2.length then acc2
        else processPage uploaded maxPosts rest acc2

/-- The paging `while True` loop of `fetch_posts_from_api`, given the network
as a function from page number to response.  Returns the collected candidates
together with the list of page numbers actually requested, in request order.
The loop body breaks on a request error, a non-200 status, an empty body,
`max_posts` reached, or the declared total-page count reached; `fuel` bounds
the otherwise unbounded loop and only ever truncates it. -/
def fetchLoop (resp : Nat → FetchResp) (uploaded : List String) (maxPosts : Option Nat) :
    Nat → Nat → List PostInfo → List Nat → List PostInfo × List Nat
  | 0, _, acc, req => (acc, req)
  | fuel + 1, page, acc, req =>
    let req2 := req ++ [page]
    match resp page with
    | .reqError => (acc, req2)
    | .ok status body tp =>
      if status ≠ 200 then (acc, req2)
      else if body.isEmpty then (acc, req2)
      else
        let acc2 := processPage uploaded maxPosts body acc
        if maxReached maxPosts acc2.length then (acc2, req2)
        else
          match tp with
          | some n => if n ≤ page then (acc2, req2)
                      else fetchLoop resp uploaded maxPosts fuel (page + 1) acc2 req2
          | none => fetchLoop resp uploaded maxPosts fuel (page + 1) acc2 req2

/-- `fetch_posts_from_api`: run the paging loop from page 1 with empty
accumulators. -/
def fetch_posts_from_api (resp : Nat → FetchResp) (uploaded : List String)
    (maxPosts : Option Nat) (fuel : Nat) : List PostInfo × List Nat :=
  fetchLoop resp uploaded maxPosts fuel 1 [] []

/-! ## Standalone counting loop (robust_count.py, module-level page loop) -/

/-- Boolean extractor used by robust_count.py: three one-or-more-character
patterns, any match counts. -/
def searchLitPlus (lit : List Char) : List Char → Bool
  | [] => false
  | c :: cs =>
    (match matchLit lit (c :: cs) with
     | some (r :: _) => isIdChar r
     | _ => false) || searchLitPlus lit cs

/-- `extract_youtube_url` from robust_count.py (returns a boolean). -/
def rc_extract_youtube_url (content : String) : Bool :=
  searchLitPlus "youtube.com/embed/".data content.data ||
  searchLitPlus "youtu.be/".data content.data ||
  searchLitPlus "youtube.com/watch?v=".data content.data

/-- One request outcome for the robust_count loop. -/
inductive RcResp where
  | httpOk (body : List RawPost)
  | httpErr (status : Nat)
  | timeout
  | connError
deriving DecidableEq

/-- The robust_count page loop.  `req` maps the running request index to its
outcome (the same page may be requested repeatedly).  State: request index,
current page, consecutive-error count, video count.  Returns
(video count, number of requests made, aborted-due-to-errors flag).
A failed request increments the consecutive-error counter and retries the
same page after a sleep; five consecutive failures abort the loop; a
successful page resets the counter and advances. -/
def robustCountLoop (req : Nat → RcResp) (totalPages : Nat) :
    Nat → Nat → Nat → Nat → Nat → Nat × Nat × Bool
  | 0, k, _, _, vc => (vc, k, false)
  | fuel + 1, k, page, cons, vc =>
    if totalPages < page then (vc, k, false)
    else
      match req k with
      | .httpOk body =>
        if body.isEmpty then (vc, k + 1, false)
        else
          let vids := (body.filter fun p => rc_extract_youtube_url p.content).length
          robustCountLoop req totalPages fuel (k + 1) (page + 1) 0 (vc + vids)
      | .httpErr _ =>
        if 5 ≤ cons + 1 then (vc, k + 1, true)
        else robustCountLoop req totalPages fuel (k + 1) page (cons + 1) vc
      | .timeout =>
        if 5 ≤ cons + 1 then (vc, k + 1, true)
        else robustCountLoop req totalPages fuel (k + 1) page (cons + 1) vc
      | .connError =>
        if 5 ≤ cons + 1 then (vc, k + 1, true)
        else robustCountLoop req totalPages fuel (k + 1) page (cons + 1) vc

/-- Demo post whose content carries a well-formed short link. -/
def demoPost : RawPost :=
  ⟨"77", "Demo", "watch at youtu.be/ABCDEFGHIJK now", "2024-01-01"⟩

example :
    fetch_posts_from_api (fun _ => .ok 200 [demoPost] (some 2)) [] none 10 =
      ([⟨"77", "Demo", "https://www.youtube.com/watch?v=ABCDEFGHIJK", "2024-01-01"⟩,
        ⟨"77", "Demo", "https://www.youtube.com/watch?v=ABCDEFGHIJK", "2024-01-01"⟩],
       [1, 2]) := by decide

example :
    robustCountLoop (fun k => if k < 4 then .timeout else .httpOk [demoPost]) 2
      20 0 1 0 0 = (2, 6, false) := by decide

example :
    robustCountLoop (fun _ => .timeout) 2 20 0 1 0 0 = (0, 5, true) := by decide

/-! ## Transfer worker (youtube_to_s3_api.py, download_and_stream_to_s3) -/

/-- Environment of one transfer attempt: whether the download step raises,
whether the spool file exists after the download, its size, the actual
extension reported, and whether the upload call raises. -/
structure DlWorld where
  downloadRaises : Bool
  fileCreated : Bool
  fileSize : Nat
  ext : String
  uploadRaises : Bool

/-- Result of the `try` body before `finally` runs: an explicit return value
or a raised exception, paired with whether an upload was attempted. -/
inductive DlBodyResult where
  | ret (success : Bool)
  | exn
deriving DecidableEq

/-- The `try` body of `download_and_stream_to_s3`: download, existence check,
zero-size check, streamed upload. -/
def dlBody (w : DlWorld) : DlBodyResult × Bool :=
  if w.downloadRaises then (.exn, false)
  else if !w.fileCreated then (.ret false, false)
  else if w.fileSize = 0 then (.ret false, false)
  else if w.uploadRaises then (.exn, true)
  else (.ret true, true)

/-- Observable outcome of `download_and_stream_to_s3`: returned flag, whether
an upload was attempted, whether the spool file still exists after return,
and the storage key written on success. -/
structure DlResult where
  success : Bool
  uploadAttempted : Bool
  tmpExistsAfter : Bool
  uploadedKey : Option String
deriving DecidableEq

/-- The `finally` clause: remove the spool file if it exists. -/
def finallyCleanup (tmpExists : Bool) : Bool :=
  if tmpExists then false else tmpExists

/-- `download_and_stream_to_s3`: runs the body under try/except/finally.
The temporary file exists after the body iff the download left it in place;
an exception anywhere yields a `False` return via the `except` clause. -/
def download_and_stream_to_s3 (w : DlWorld) (post_id : String) : DlResult :=
  let body := dlBody w
  let tmpFinal := finallyCleanup w.fileCreated
  match body with
  | (.ret b, attempted) =>
    ⟨b, attempted, tmpFinal, if b then some ("videos/" ++ post_id ++ "." ++ w.ext) else none⟩
  | (.exn, attempted) => ⟨false, attempted, tmpFinal, none⟩

/-! ## Dedup ledger (youtube_to_s3_api.py, save_uploaded_videos / process_posts) -/

/-- Ledger state: the in-memory list of uploaded post ids and the list last
persisted to uploaded_videos.json. -/
structure LedgerState where
  inMemory : List String
  persisted : List String
deriving DecidableEq

/-- `save_uploaded_videos`: rewrite the persisted file from the in-memory list. -/
def save_uploaded_videos (l : LedgerState) : LedgerState :=
  { l with persisted := l.inMemory }

/-- The per-item body of the `process_posts` loop: run the transfer, and on
success append the id and persist; on failure increment the failure count. -/
def process_posts_step (w : DlWorld) (p : PostInfo) (succ fail : Nat)
    (led : LedgerState) : Nat × Nat × LedgerState :=
  let r := download_and_stream_to_s3 w p.id
  if r.success then
    (succ + 1, fail, save_uploaded_videos { led with inMemory := led.inMemory ++ [p.id] })
  else (succ, fail + 1, led)

/-! ## Job coordinator (api_server.py, upload_status / start_upload / upload_worker) -/

/-- The `current_post` sub-dictionary of the status. -/
structure PostRef where
  id : String
  title : String
  youtube_url : String
deriving DecidableEq

/-- The global `upload_status` dictionary.  Timestamps are abstracted to
`Option Nat`: `none` is Python `None`, `some _` an isoformat string. -/
structure UploadStatus where
  is_running : Bool
  current_post_index : Nat
  total_posts : Nat
  successful_uploads : Nat
  failed_uploads : Nat
  current_post : Option PostRef
  started_at : Option Nat
  completed_at : Option Nat
deriving DecidableEq

/-- The zero status used at module load and by the reset in `start_upload`. -/
def initialStatus : UploadStatus :=
  ⟨false, 0, 0, 0, 0, none, none, none⟩

/-- Result of the `start` endpoint. -/
inductive StartResult where
  | conflict
  | accepted
deriving DecidableEq

/-- `start_upload`: reject with the 409 conflict when a run is active,
otherwise reset the status and spawn the worker thread. -/
def start_upload (st : UploadStatus) : StartResult × UploadStatus :=
  if st.is_running then (.conflict, st)
  else (.accepted, initialStatus)

/-- Events observable from outside the worker, in emission order: status
mutations, the in-memory ledger append, and the durable ledger persist. -/
inductive Ev where
  | setIndex (n : Nat)
  | setCurrent (id : String)
  | incrSuccess (id : String)
  | appendLedger (id : String)
  | persistLedger (id : String)
  | incrFail (id : String)
deriving BEq, DecidableEq

/-- Environment of one worker run: whether uploader construction raises,
the page responses, the loaded ledger, loop fuel, the per-item transfer
environments, and whether the per-item ledger persist raises. -/
structure WorkerWorld where
  initError : Bool
  resp : Nat → FetchResp
  uploaded : List String
  fuel : Nat
  dl : String → DlWorld
  saveError : String → Bool

/-- The `for idx, post in enumerate(posts, 1)` loop of `upload_worker`.
Returns the status and emitted events; `Except.error` carries the state at
the point where `save_uploaded_videos` raised. -/
def workerLoop (w : WorkerWorld) :
    List PostInfo → Nat → UploadStatus →
    Except (UploadStatus × List Ev) (UploadStatus × List Ev)
  | [], _, st => .ok (st, [])
  | p :: rest, idx, st =>
    let st1 := { st with current_post_index := idx,
                         current_post := some ⟨p.id, p.title, p.youtube_url⟩ }
    let r := download_and_stream_to_s3 (w.dl p.id) p.id
    if r.success then
      let st2 := { st1 with successful_uploads := st1.successful_uploads + 1 }
      if w.saveError p.id then
        .error (st2, [.setIndex idx, .setCurrent p.id, .incrSuccess p.id, .appendLedger p.id])
      else
        match workerLoop w rest (idx + 1) st2 with
        | .ok (st3, evs) =>
          .ok (st3, [.setIndex idx, .setCurrent p.id, .incrSuccess p.id,
                     .appendLedger p.id, .persistLedger p.id] ++ evs)
        | .error (st3, evs) =>
          .error (st3, [.setIndex idx, .setCurrent p.id, .incrSuccess p.id,
                        .appendLedger p.id, .persistLedger p.id] ++ evs)
    else
      match workerLoop w rest (idx + 1) { st1 with failed_uploads := st1.failed_uploads + 1 } with
      | .ok (st3, evs) => .ok (st3, [.setIndex idx, .setCurrent p.id, .incrFail p.id] ++ evs)
      | .error (st3, evs) => .error (st3, [.setIndex idx, .setCurrent p.id, .incrFail p.id] ++ evs)

/-- The `finally` clause of `upload_worker`. -/
def finalizeStatus (st : UploadStatus) : UploadStatus :=
  { st with is_running := false, current_post := none }

/-- `upload_worker`: set running/started, enumerate, drive the per-item loop,
set `completed_at` on normal completion; any raised exception is swallowed by
`except` and the `finally` clause always clears `is_running`/`current_post`. -/
def upload_worker (w : WorkerWorld) (maxPosts : Option Nat) (st : UploadStatus) :
    UploadStatus × List Ev :=
  let st1 := { st with is_running := true, started_at := some 0 }
  if w.initError then (finalizeStatus st1, [])
  else
    let posts := (fetch_posts_from_api w.resp w.uploaded maxPosts w.fuel).1
    let st2 := { st1 with total_posts := posts.length }
    match workerLoop w posts 1 st2 with
    | .ok (st3, evs) => (finalizeStatus { st3 with completed_at := some 1 }, evs)
    | .error (st3, evs) => (finalizeStatus st3, evs)

/-- A transfer environment that succeeds. -/
def okDl : DlWorld := ⟨false, true, 5000, "mp4", false⟩

example :
    upload_worker
      ⟨false, (fun p => if p = 1 then .ok 200 [demoPost] (some 1) else .reqError),
       [], 10, (fun _ => okDl), (fun _ => false)⟩ none initialStatus =
    (⟨false, 1, 1, 1, 0, none, some 0, some 1⟩,
     [.setIndex 1, .setCurrent "77", .incrSuccess "77", .appendLedger "77",
      .persistLedger "77"]) := by decide

example :
    upload_worker
      ⟨false, (fun p => if p = 1 then .ok 200 [demoPost] (some 1) else .reqError),
       [], 10, (fun _ => okDl), (fun _ => true)⟩ none initialStatus =
    (⟨false, 1, 1, 1, 0, none, some 0, none⟩,
     [.setIndex 1, .setCurrent "77", .incrSuccess "77", .appendLedger "77"]) := by decide

/-! ## Reconciliation (verify_uploads.py, verify_uploads) -/

/-- Python `str.strip()`: drop leading and trailing whitespace. -/
def pyStrip (s : List Char) : List Char :=
  ((s.dropWhile Char.isWhitespace).reverse.dropWhile Char.isWhitespace).reverse

/-- ASCII lowercasing of one character, as in Python `str.lower()` on ASCII. -/
def asciiLower (c : Char) : Char :=
  if c.isUpper then Char.ofNat (c.toNat + 32) else c

/-- The confirmation test `choice.strip().lower() in ['yes', 'y']`. -/
def repairConfirmed (choice : String) : Bool :=
  let c := (pyStrip choice.data).map asciiLower
  ["yes".data, "y".data].contains c

/-- `verify_uploads`, its pure core: given the ledger entries, the post ids
recovered from the storage listing, and the interactive answer, return
(missing-in-storage, extra-in-storage, ledger file contents after the run).
The ledger file is rewritten (to the verified entries) only when some entry
is missing and the caller answered yes. -/
def verify_uploads (uploadedPostIds s3VideoIds : List String) (choice : String) :
    List String × List String × List String :=
  let missing := uploadedPostIds.filter fun i => !s3VideoIds.contains i
  let verified := uploadedPostIds.filter fun i => s3VideoIds.contains i
  let extra := s3VideoIds.filter fun i => !uploadedPostIds.contains i
  let finalLedger :=
    if !missing.isEmpty && repairConfirmed choice then verified else uploadedPostIds
  (missing, extra, finalLedger)

example : verify_uploads ["1", "2"] ["2", "3"] "no" = (["1"], ["3"], ["1", "2"]) := by decide

example : verify_uploads ["1", "2"] ["2", "3"] " YES " = (["1"], ["3"], ["2"]) := by decide

/-! ## Shared demo environments -/

/-- Worker environment: one candidate post, transfer succeeds, ledger persist
succeeds. -/
def demoWorldOk : WorkerWorld :=
  ⟨false, (fun p => if p = 1 then .ok 200 [demoPost] (some 1) else .reqError),
   [], 10, (fun _ => okDl), (fun _ => false)⟩

/-- Worker environment: one candidate post, transfer succeeds, but the ledger
persist (`save_uploaded_videos`) raises. -/
def demoWorldSaveErr : WorkerWorld :=
  ⟨false, (fun p => if p = 1 then .ok 200 [demoPost] (some 1) else .reqError),
   [], 10, (fun _ => okDl), (fun _ => true)⟩

/-- Transfer environment whose download yields an existing zero-byte file. -/
def zeroByteDl : DlWorld := ⟨false, true, 0, "mp4", false⟩

/-- Page environment for the no-retry counterexample: page 1 raises a
transient request error, later pages would have returned candidates. -/
def noRetryResp : Nat → FetchResp :=
  fun p => if p = 1 then .reqError else .ok 200 [demoPost] (some 3)

/-- Page environment that always answers with a non-empty body and
`X-WP-TotalPages = 2`, so a non-empty page 3 is available but out of range. -/
def demoResp3 : Nat → FetchResp :=
  fun _ => .ok 200 [demoPost] (some 2)

/-! ## Claim theorems -/

/-- C1: a `start` request arriving while `is_running` is true returns the
distinct conflict result and leaves every field of the in-progress status
unchanged. -/
theorem start_conflict_preserves_status (st : UploadStatus)
    (h : st.is_running = true) :
    start_upload st = (StartResult.conflict, st) := by
  simp [start_upload, h]

theorem start_conflict_preserves_status_witness :
    start_upload ⟨true, 3, 10, 2, 1, some ⟨"9", "T", "u"⟩, some 0, none⟩ =
      (StartResult.conflict, ⟨true, 3, 10, 2, 1, some ⟨"9", "T", "u"⟩, some 0, none⟩) :=
  start_conflict_preserves_status _ rfl

/-- C6: on every execution path of `download_and_stream_to_s3` — success,
missing file, zero-byte file, or an exception during download or upload —
the temporary spool file no longer exists when the operation returns. -/
theorem transfer_always_cleans_tmp (w : DlWorld) (post_id : String) :
    (download_and_stream_to_s3 w post_id).tmpExistsAfter = false := by
  unfold download_and_stream_to_s3 finallyCleanup
  rcases hb : dlBody w with ⟨br, att⟩
  cases br <;> cases hfc : w.fileCreated <;> simp [hb, hfc]

/-- C5: a download that leaves an existing zero-byte file makes the transfer
return the failed outcome without attempting an upload, and the per-item
`process_posts` step leaves both the in-memory and the persisted ledger
unchanged. -/
theorem zero_byte_download_fails_and_keeps_ledger
    (w : DlWorld) (p : PostInfo) (nSucc nFail : Nat) (led : LedgerState)
    (hcreated : w.fileCreated = true) (hsize : w.fileSize = 0)
    (hdl : w.downloadRaises = false) :
    (download_and_stream_to_s3 w p.id).success = false ∧
    (download_and_stream_to_s3 w p.id).uploadAttempted = false ∧
    process_posts_step w p nSucc nFail led = (nSucc, nFail + 1, led) := by
  have hb : dlBody w = (.ret false, false) := by
    simp [dlBody, hdl, hcreated, hsize]
  have hr : download_and_stream_to_s3 w p.id =
      ⟨false, false, finallyCleanup w.fileCreated, none⟩ := by
    simp [download_and_stream_to_s3, hb]
  refine ⟨by simp [hr], by simp [hr], ?_⟩
  simp [process_posts_step, hr]

theorem zero_byte_download_fails_and_keeps_ledger_witness :
    (download_and_stream_to_s3 zeroByteDl "41").success = false ∧
    (download_and_stream_to_s3 zeroByteDl "41").uploadAttempted = false ∧
    process_posts_step zeroByteDl ⟨"41", "t", "u", "d"⟩ 0 0 ⟨["7"], ["7"]⟩ =
      (0, 1, ⟨["7"], ["7"]⟩) :=
  zero_byte_download_fails_and_keeps_ledger zeroByteDl ⟨"41", "t", "u", "d"⟩ 0 0
    ⟨["7"], ["7"]⟩ rfl rfl rfl

/-- C7: reconciliation reports `missing = L - S` and `extra = S - L` (as set
differences), yields `missing = ["1"]`, `extra = ["3"]` on the spec instance,
and never rewrites the ledger file unless the caller confirmed the repair. -/
theorem reconcile_diff_correct :
    (∀ (L S : List String) (c x : String),
        (x ∈ (verify_uploads L S c).1 ↔ x ∈ L ∧ x ∉ S) ∧
        (x ∈ (verify_uploads L S c).2.1 ↔ x ∈ S ∧ x ∉ L)) ∧
    verify_uploads ["1", "2"] ["2", "3"] "no" = (["1"], ["3"], ["1", "2"]) ∧
    (∀ (L S : List String) (c : String), repairConfirmed c = false →
        (verify_uploads L S c).2.2 = L) := by
  refine ⟨?_, by decide, ?_⟩
  · intro L S c x
    constructor
    · simp [verify_uploads, List.mem_filter]
    · simp [verify_uploads, List.mem_filter]
  · intro L S c h
    simp [verify_uploads, h]

theorem reconcile_diff_correct_witness :
    ("1" ∈ (verify_uploads ["1", "2"] ["2", "3"] "no").1 ↔
      "1" ∈ ["1", "2"] ∧ "1" ∉ ["2", "3"]) ∧
    (verify_uploads ["5"] [] "maybe").2.2 = ["5"] :=
  ⟨(reconcile_diff_correct.1 ["1", "2"] ["2", "3"] "no" "1").1,
   reconcile_diff_correct.2.2 ["5"] [] "maybe" (by decide)⟩

/-- A worker event trace in which every success increment is immediately
followed by the in-memory ledger append and then the durable persist for the
same item, before any further observable event. -/
def goodTrace (tr : List Ev) : Prop :=
  ∀ j id, tr[j]? = some (.incrSuccess id) →
    tr[j + 1]? = some (.appendLedger id) ∧ tr[j + 2]? = some (.persistLedger id)

lemma goodTrace_nil : goodTrace [] := by
  intro j id h
  simp at h

lemma goodTrace_success_block (idx : Nat) (pid : String) (evs : List Ev)
    (h : goodTrace evs) :
    goodTrace ([.setIndex idx, .setCurrent pid, .incrSuccess pid,
                .appendLedger pid, .persistLedger pid] ++ evs) := by
  intro j id hj
  simp only [List.cons_append, List.nil_append] at hj ⊢
  rcases j with _ | _ | _ | _ | _ | j <;>
    simp_all [List.getElem?_cons_zero, List.getElem?_cons_succ]
  exact h j id hj

lemma goodTrace_fail_block (idx : Nat) (pid : String) (evs : List Ev)
    (h : goodTrace evs) :
    goodTrace ([.setIndex idx, .setCurrent pid, .incrFail pid] ++ evs) := by
  intro j id hj
  simp only [List.cons_append, List.nil_append] at hj ⊢
  rcases j with _ | _ | _ | j <;>
    simp_all [List.getElem?_cons_zero, List.getElem?_cons_succ]
  exact h j id hj

/-- When no ledger persist ever raises, the worker loop terminates normally
and its event trace orders append/persist right after each success increment. -/
lemma workerLoop_no_save_error (w : WorkerWorld)
    (hs : ∀ i, w.saveError i = false) :
    ∀ (posts : List PostInfo) (idx : Nat) (st : UploadStatus),
      ∃ st2 evs, workerLoop w posts idx st = .ok (st2, evs) ∧ goodTrace evs := by
  intro posts
  induction posts with
  | nil =>
    intro idx st
    exact ⟨st, [], rfl, goodTrace_nil⟩
  | cons p rest ih =>
    intro idx st
    by_cases hr : (download_and_stream_to_s3 (w.dl p.id) p.id).success = true
    · obtain ⟨st3, evs, hok, hgood⟩ := ih (idx + 1)
        { st with current_post_index := idx,
                  current_post := some ⟨p.id, p.title, p.youtube_url⟩,
                  successful_uploads := st.successful_uploads + 1 }
      refine ⟨st3, _, ?_, goodTrace_success_block idx p.id evs hgood⟩
      simp only [workerLoop, hr, hs p.id, if_true, if_false, Bool.false_eq_true]
      rw [hok]
    · obtain ⟨st3, evs, hok, hgood⟩ := ih (idx + 1)
        { st with current_post_index := idx,
                  current_post := some ⟨p.id, p.title, p.youtube_url⟩,
                  failed_uploads := st.failed_uploads + 1 }
      refine ⟨st3, _, ?_, goodTrace_fail_block idx p.id evs hgood⟩
      simp only [workerLoop, hr, if_false, Bool.false_eq_true]
      rw [hok]

/-- C2 (counterexample): a run in which the ledger persist raises mid-run
terminates with `is_running` false but `completed_at` still unset, so a
terminating run can leave `completed_at` unset, contrary to the claim. -/
theorem run_abort_leaves_completed_at_unset :
    (upload_worker demoWorldSaveErr none initialStatus).1.completed_at = none ∧
    (upload_worker demoWorldSaveErr none initialStatus).1.is_running = false := by
  decide

/-- C2 (amended): every terminating run — normal completion, exhaustion, or
an exception raised mid-run — ends with `is_running` false and the current
item cleared; `completed_at` is additionally set whenever no exception
escapes the worker body (uploader construction and every ledger persist
succeed; enumeration failures are absorbed inside enumeration and therefore
still complete normally). -/
theorem run_finalizes_status (w : WorkerWorld) (mp : Option Nat) (st : UploadStatus) :
    (upload_worker w mp st).1.is_running = false ∧
    (upload_worker w mp st).1.current_post = none ∧
    (w.initError = false → (∀ i, w.saveError i = false) →
      (upload_worker w mp st).1.completed_at = some 1) := by
  by_cases hi : w.initError
  · refine ⟨?_, ?_, ?_⟩ <;> simp [upload_worker, hi, finalizeStatus]
  · simp only [Bool.not_eq_true] at hi
    refine ⟨?_, ?_, ?_⟩
    · unfold upload_worker
      rw [hi]
      simp only [Bool.false_eq_true, if_false]
      rcases hw : workerLoop w (fetch_posts_from_api w.resp w.uploaded mp w.fuel).1 1
          { st with is_running := true, started_at := some 0,
                    total_posts := (fetch_posts_from_api w.resp w.uploaded mp w.fuel).1.length }
        with ⟨st3, evs⟩ | ⟨st3, evs⟩ <;> simp [finalizeStatus]
    · unfold upload_worker
      rw [hi]
      simp only [Bool.false_eq_true, if_false]
      rcases hw : workerLoop w (fetch_posts_from_api w.resp w.uploaded mp w.fuel).1 1
          { st with is_running := true, started_at := some 0,
                    total_posts := (fetch_posts_from_api w.resp w.uploaded mp w.fuel).1.length }
        with ⟨st3, evs⟩ | ⟨st3, evs⟩ <;> simp [finalizeStatus]
    · intro _ hs
      obtain ⟨st3, evs, hok, _⟩ := workerLoop_no_save_error w hs
        (fetch_posts_from_api w.resp w.uploaded mp w.fuel).1 1
        { st with is_running := true, started_at := some 0,
                  total_posts := (fetch_posts_from_api w.resp w.uploaded mp w.fuel).1.length }
      unfold upload_worker
      rw [hi]
      simp only [Bool.false_eq_true, if_false]
      rw [hok]
      simp [finalizeStatus]

theorem run_finalizes_status_witness :
    (upload_worker demoWorldOk none initialStatus).1.is_running = false ∧
    (upload_worker demoWorldOk none initialStatus).1.current_post = none ∧
    (upload_worker demoWorldOk none initialStatus).1.completed_at = some 1 :=
  ⟨(run_finalizes_status demoWorldOk none initialStatus).1,
   (run_finalizes_status demoWorldOk none initialStatus).2.1,
   (run_finalizes_status demoWorldOk none initialStatus).2.2 rfl (fun _ => rfl)⟩

/-- First index of an event in a trace (the trace length when absent). -/
def evPos (tr : List Ev) (e : Ev) : Nat :=
  tr.findIdx (fun x => x == e)

/-- C4 (counterexample): in a run with one successful item, the success
counter increment is emitted strictly before the ledger append and persist —
the trace is exactly index/current/increment/append/persist — so the persist
does not happen before the counter increment, contrary to the claim. -/
theorem success_counted_before_persist :
    (upload_worker demoWorldOk none initialStatus).2 =
      [.setIndex 1, .setCurrent "77", .incrSuccess "77",
       .appendLedger "77", .persistLedger "77"] ∧
    evPos (upload_worker demoWorldOk none initialStatus).2 (.incrSuccess "77") <
      evPos (upload_worker demoWorldOk none initialStatus).2 (.persistLedger "77") := by
  decide

/-- C4 (amended): in every run whose ledger persists succeed, each success is
counted first and the ledger append and durable persist follow immediately,
before any further observable event; an observer may therefore briefly see a
success counted whose ledger entry is not yet persisted, but never a persisted
entry separated from its increment. -/
theorem ledger_persist_follows_increment (w : WorkerWorld) (mp : Option Nat)
    (st : UploadStatus) (hs : ∀ i, w.saveError i = false) :
    goodTrace (upload_worker w mp st).2 := by
  by_cases hi : w.initError
  · simp only [upload_worker, hi, if_true]
    exact goodTrace_nil
  · simp only [Bool.not_eq_true] at hi
    obtain ⟨st3, evs, hok, hgood⟩ := workerLoop_no_save_error w hs
      (fetch_posts_from_api w.resp w.uploaded mp w.fuel).1 1
      { st with is_running := true, started_at := some 0,
                total_posts := (fetch_posts_from_api w.resp w.uploaded mp w.fuel).1.length }
    unfold upload_worker
    rw [hi]
    simp only [Bool.false_eq_true, if_false]
    rw [hok]
    exact hgood

theorem ledger_persist_follows_increment_witness :
    ((upload_worker demoWorldOk none initialStatus).2)[3]? =
      some (.appendLedger "77") ∧
    ((upload_worker demoWorldOk none initialStatus).2)[4]? =
      some (.persistLedger "77") :=
  ledger_persist_follows_increment demoWorldOk none initialStatus (fun _ => rfl)
    2 "77" (by decide)

/-- C3 (counterexample): with a transient request error on page 1 and
candidate-bearing pages behind it, `fetch_posts_from_api` makes exactly one
request and returns no candidates — the failed page is never retried, so a
first transient failure does end enumeration. -/
theorem first_transient_failure_ends_enumeration :
    fetch_posts_from_api noRetryResp [] none 10 = ([], [1]) := by
  decide

/-- C3 (amended): the run's enumerator has no retry — a raised transient
error or any non-200 status on the first page ends enumeration immediately
after that single request — while the standalone robust_count page loop does
retry the same page after a failure and aborts only once five consecutive
failures accumulate (four failures followed by successes complete the scan;
five straight failures abort after exactly five requests). -/
theorem no_retry_in_run_enumeration_retry_only_in_robust_count :
    (∀ (resp : Nat → FetchResp) (uploaded : List String) (mp : Option Nat)
        (fuel : Nat), 1 ≤ fuel → resp 1 = .reqError →
        fetch_posts_from_api resp uploaded mp fuel = ([], [1])) ∧
    (∀ (resp : Nat → FetchResp) (uploaded : List String) (mp : Option Nat)
        (fuel status : Nat) (body : List RawPost) (tp : Option Nat),
        1 ≤ fuel → resp 1 = .ok status body tp → status ≠ 200 →
        fetch_posts_from_api resp uploaded mp fuel = ([], [1])) ∧
    robustCountLoop (fun k => if k < 4 then .timeout else .httpOk [demoPost]) 2
      20 0 1 0 0 = (2, 6, false) ∧
    robustCountLoop (fun _ => .timeout) 2 20 0 1 0 0 = (0, 5, true) := by
  refine ⟨?_, ?_, by decide, by decide⟩
  · intro resp uploaded mp fuel hf hr
    match fuel, hf with
    | f + 1, _ =>
      simp [fetch_posts_from_api, fetchLoop, hr]
  · intro resp uploaded mp fuel status body tp hf hr h200
    match fuel, hf with
    | f + 1, _ =>
      simp [fetch_posts_from_api, fetchLoop, hr, h200]

theorem no_retry_in_run_enumeration_witness :
    fetch_posts_from_api (fun _ => FetchResp.reqError) ["3"] (some 5) 7 = ([], [1]) ∧
    fetch_posts_from_api (fun _ => FetchResp.ok 429 [demoPost] (some 4)) [] none 7 =
      ([], [1]) :=
  ⟨no_retry_in_run_enumeration_retry_only_in_robust_count.1
      (fun _ => FetchResp.reqError) ["3"] (some 5) 7 (by decide) rfl,
   no_retry_in_run_enumeration_retry_only_in_robust_count.2.1
      (fun _ => FetchResp.ok 429 [demoPost] (some 4)) [] none 7 429 [demoPost]
      (some 4) (by decide) rfl (by decide)⟩

/-- All pages ever requested by the paging loop stay at or below a total-page
count that every response declares. -/
lemma fetchLoop_pages_bounded (resp : Nat → FetchResp) (uploaded : List String)
    (mp : Option Nat) (N : Nat) (htp : ∀ p, respTotalPages (resp p) = some N) :
    ∀ (fuel page : Nat) (acc : List PostInfo) (req : List Nat), page ≤ N →
      (∀ q, q ∈ req → q ≤ N) →
      ∀ q, q ∈ (fetchLoop resp uploaded mp fuel page acc req).2 → q ≤ N := by
  intro fuel
  induction fuel with
  | zero =>
    intro page acc req _ hreq q hq
    exact hreq q hq
  | succ f ih =>
    intro page acc req hp hreq q hq
    have hreq2 : ∀ q, q ∈ req ++ [page] → q ≤ N := by
      intro q hq2
      rcases List.mem_append.mp hq2 with h | h
      · exact hreq q h
      · simp only [List.mem_singleton] at h
        omega
    cases hr : resp page with
    | reqError =>
      have := htp page
      rw [hr] at this
      simp [respTotalPages] at this
    | ok status body tp =>
      have htpp := htp page
      rw [hr] at htpp
      simp only [respTotalPages] at htpp
      subst htpp
      simp only [fetchLoop, hr] at hq
      by_cases h200 : status ≠ 200
      · rw [if_pos h200] at hq
        exact hreq2 q hq
      · rw [if_neg h200] at hq
        by_cases hemp : body.isEmpty = true
        · rw [if_pos hemp] at hq
          exact hreq2 q hq
        · rw [if_neg hemp] at hq
          by_cases hmax :
              maxReached mp (processPage uploaded mp body acc).length = true
          · rw [if_pos hmax] at hq
            exact hreq2 q hq
          · rw [if_neg hmax] at hq
            by_cases hnp : N ≤ page
            · rw [if_pos hnp] at hq
              exact hreq2 q hq
            · rw [if_neg hnp] at hq
              exact ih (page + 1) _ (req ++ [page]) (by omega) hreq2 q hq

/-- C8: when every page response declares `X-WP-TotalPages = N`, enumeration
requests no page beyond N; in the spec scenario (all pages non-empty, header
2, a non-empty page 3 available) exactly pages 1 and 2 are requested; and an
empty first page body ends enumeration after that one request. -/
theorem enumeration_respects_total_pages :
    (∀ (resp : Nat → FetchResp) (uploaded : List String) (mp : Option Nat)
        (fuel N : Nat), 1 ≤ N → (∀ p, respTotalPages (resp p) = some N) →
        ∀ q, q ∈ (fetch_posts_from_api resp uploaded mp fuel).2 → q ≤ N) ∧
    (fetch_posts_from_api demoResp3 [] none 10).2 = [1, 2] ∧
    (∀ (resp : Nat → FetchResp) (uploaded : List String) (mp : Option Nat)
        (fuel : Nat) (tp : Option Nat), 1 ≤ fuel → resp 1 = .ok 200 [] tp →
        (fetch_posts_from_api resp uploaded mp fuel).2 = [1]) := by
  refine ⟨?_, by decide, ?_⟩
  · intro resp uploaded mp fuel N hN htp q hq
    exact fetchLoop_pages_bounded resp uploaded mp N htp fuel 1 [] [] hN
      (by intro q hq2; simp at hq2) q hq
  · intro resp uploaded mp fuel tp hf hr
    match fuel, hf with
    | f + 1, _ =>
      simp [fetch_posts_from_api, fetchLoop, hr]

theorem enumeration_respects_total_pages_witness :
    (2 : Nat) ≤ 2 ∧
    (fetch_posts_from_api (fun _ => FetchResp.ok 200 [] (some 9)) [] none 5).2 = [1] :=
  ⟨enumeration_respects_total_pages.1 demoResp3 [] none 10 2 (by decide)
      (fun _ => rfl) 2 (by decide),
   enumeration_respects_total_pages.2.2 (fun _ => FetchResp.ok 200 [] (some 9))
      [] none 5 (some 9) (by decide) rfl⟩

/-- C9: when the content holds a well-formed watch-link with token `t`, any
decoy is matched only by the catch-all pattern, and no higher-priority
pattern matches with a different token, the extractor returns the canonical
URL built from `t`, not from the decoy. -/
theorem watch_link_beats_catchall_decoy (html : String) (t d : List Char)
    (hwatch : searchLitTok "youtube.com/watch?v=".data html.data = some t)
    (_hdecoy : searchP5 html.data = some d)
    (hembed : searchLitTok "youtube.com/embed/".data html.data = none ∨
              searchLitTok "youtube.com/embed/".data html.data = some t)
    (hshort : searchLitTok "youtu.be/".data html.data = none ∨
              searchLitTok "youtu.be/".data html.data = some t) :
    extract_youtube_url html = some (canonicalUrl t) := by
  unfold extract_youtube_url
  rcases hembed with he | he
  · rcases hshort with hs | hs
    · simp [he, hs, hwatch]
    · simp [he, hs]
  · simp [he]

theorem watch_link_beats_catchall_decoy_witness :
    extract_youtube_url
        "see youtube.com/AAAAAAAAAAA then https://www.youtube.com/watch?v=BBBBBBBBBBB" =
      some (canonicalUrl "BBBBBBBBBBB".data) :=
  watch_link_beats_catchall_decoy
    "see youtube.com/AAAAAAAAAAA then https://www.youtube.com/watch?v=BBBBBBBBBBB"
    "BBBBBBBBBBB".data "AAAAAAAAAAA".data (by decide) (by decide)
    (Or.inl (by decide)) (Or.inl (by decide))

lemma grabToken_shape (s t : List Char) (h : grabToken s = some t) :
    t.length = 11 ∧ t.all isIdChar = true := by
  simp only [grabToken] at h
  split at h
  · rename_i hc
    injection h with h
    subst h
    constructor
    · simp only [List.length_take]
      omega
    · rw [List.all_eq_true]
      intro x hx
      exact List.mem_takeWhile_imp (List.take_subset 11 _ hx)
  · exact absurd h (by simp)

lemma litTokAt_shape (lit s t : List Char) (h : litTokAt lit s = some t) :
    t.length = 11 ∧ t.all isIdChar = true := by
  simp only [litTokAt] at h
  cases hm : matchLit lit s with
  | none => rw [hm] at h; exact absurd h (by simp)
  | some rest => rw [hm] at h; exact grabToken_shape rest t h

lemma trySeps_shape (r t : List Char) (h : trySeps r = some t) :
    t.length = 11 ∧ t.all isIdChar = true := by
  simp only [trySeps] at h
  cases h1 : litTokAt "/".data r with
  | some u => rw [h1] at h; injection h with h; subst h; exact litTokAt_shape _ r u h1
  | none =>
    rw [h1] at h
    cases h2 : litTokAt "/watch?v=".data r with
    | some u => rw [h2] at h; injection h with h; subst h; exact litTokAt_shape _ r u h2
    | none =>
      rw [h2] at h
      exact litTokAt_shape _ r t h

lemma matchP5At_shape (s t : List Char) (h : matchP5At s = some t) :
    t.length = 11 ∧ t.all isIdChar = true := by
  simp only [matchP5At] at h
  cases h1 : matchLit "youtube.com".data s with
  | some rest => rw [h1] at h; exact trySeps_shape rest t h
  | none =>
    rw [h1] at h
    cases h2 : matchLit "youtu.be".data s with
    | some rest => rw [h2] at h; exact trySeps_shape rest t h
    | none => rw [h2] at h; exact absurd h (by simp)

lemma searchP5_shape (s t : List Char) (h : searchP5 s = some t) :
    t.length = 11 ∧ t.all isIdChar = true := by
  induction s with
  | nil => exact matchP5At_shape [] t h
  | cons c cs ih =>
    simp only [searchP5] at h
    cases hm : matchP5At (c :: cs) with
    | some u =>
      rw [hm] at h
      injection h with h
      subst h
      exact matchP5At_shape (c :: cs) _ hm
    | none =>
      rw [hm] at h
      exact ih h

lemma blacklist_never_matches (t : List Char) (hlen : t.length = 11) :
    String.mk t ∉ idBlacklist := by
  intro hmem
  simp only [idBlacklist, List.mem_cons, List.not_mem_nil, or_false] at hmem
  rcases hmem with h | h | h | h <;>
    (rw [show t = _ from congrArg String.data h] at hlen; exact absurd hlen (by decide))

/-- C10: every token captured by the catch-all pattern is exactly eleven
characters from `[a-zA-Z0-9_-]`; since no blacklist literal has length
eleven, the blacklist-rejection branch is unreachable and the extractor
behaves identically with or without the blacklist check. -/
theorem catchall_token_wellformed_blacklist_unreachable :
    (∀ (s t : List Char), searchP5 s = some t →
        t.length = 11 ∧ t.all isIdChar = true) ∧
    (∀ html : String,
        extract_youtube_url html = extract_youtube_url_no_blacklist html) := by
  refine ⟨searchP5_shape, ?_⟩
  intro html
  simp only [extract_youtube_url, extract_youtube_url_no_blacklist]
  cases h1 : searchLitTok "youtube.com/embed/".data html.data with
  | some t => simp
  | none =>
    cases h2 : searchLitTok "youtu.be/".data html.data with
    | some t => simp
    | none =>
      cases h3 : searchLitTok "youtube.com/watch?v=".data html.data with
      | some t => simp
      | none =>
        cases h4 : searchLitTok "youtu.be/watch?v=".data html.data with
        | some t => simp
        | none =>
          cases h5 : searchP5 html.data with
          | none => simp
          | some t =>
            have hlen := (searchP5_shape html.data t h5).1
            simp [List.contains, blacklist_never_matches t hlen]

theorem catchall_token_wellformed_blacklist_unreachable_witness :
    ("CCCCCCCCCCC".data.length = 11 ∧ "CCCCCCCCCCC".data.all isIdChar = true) ∧
    extract_youtube_url "at youtu.be/watchCCCCCCCCCCC" =
      extract_youtube_url_no_blacklist "at youtu.be/watchCCCCCCCCCCC" :=
  ⟨catchall_token_wellformed_blacklist_unreachable.1
      "youtube.com/CCCCCCCCCCC".data "CCCCCCCCCCC".data (by decide),
   catchall_token_wellformed_blacklist_unreachable.2 "at youtu.be/watchCCCCCCCCCCC"⟩
